import Mathlib

/-!
Shallow embedding of the pmr-utils repository: the on-disk workspace cache
(`pmr_cache.py`), the cache-population pipeline (`workspaces.py`) and the
OmicsDI export transform (`workspace_list_to_mx_fmt.py`), together with
proofs about the claims of the specification.
-/

set_option autoImplicit false

namespace PmrUtils

/-! ## JSON-like values

Python's loosely structured nested data (`dict` / `list` / scalars) is
modelled as a tagged recursive value type.  `Json.null` stands for Python's
`None`; objects keep their key order (Python dicts are insertion ordered). -/

inductive Json where
  | null : Json
  | bool : Bool → Json
  | num : Int → Json
  | str : String → Json
  | arr : List Json → Json
  | obj : List (String × Json) → Json
deriving Inhabited

/-- Python truthiness of a value (`if x:`). -/
def pyTruthy : Json → Bool
  | .null => false
  | .bool b => b
  | .num n => n != 0
  | .str s => s ≠ ""
  | .arr xs => !xs.isEmpty
  | .obj fs => !fs.isEmpty

/-- Python `d.get(k)` on an insertion-ordered mapping: first entry with the key. -/
def dictGet {α : Type} (d : List (String × α)) (k : String) : Option α :=
  (d.find? (fun p => p.1 = k)).map (·.2)

/-- Python `d[k] = v` on an insertion-ordered mapping: overwrite in place if the
key is present, otherwise append at the end (Python dict assignment). -/
def dictInsert {α : Type} (d : List (String × α)) (k : String) (v : α) :
    List (String × α) :=
  match d with
  | [] => [(k, v)]
  | (k', v') :: rest =>
    if k' = k then (k, v) :: rest else (k', v') :: dictInsert rest k v

/-- Key membership (`k in d`). -/
def dictMem {α : Type} (d : List (String × α)) (k : String) : Bool :=
  (dictGet d k).isSome

/-- Is `pat` a prefix of the character list? -/
def isPrefixList : List Char → List Char → Bool
  | [], _ => true
  | _ :: _, [] => false
  | p :: ps, c :: cs => p = c && isPrefixList ps cs

/-- Replace every (leftmost, non-overlapping) occurrence of `pat`.  The
recursion is bounded by a character-count fuel, which is always sufficient
because every step consumes at least one character.  All call sites in the
embedded code use a non-empty pattern. -/
def replaceList (pat repl : List Char) : Nat → List Char → List Char
  | 0, s => s
  | _ + 1, [] => []
  | n + 1, c :: cs =>
    if isPrefixList pat (c :: cs) then
      repl ++ replaceList pat repl n (List.drop pat.length (c :: cs))
    else
      c :: replaceList pat repl n cs

/-- Python `s.replace(pat, repl)`: replace every occurrence. -/
def pyReplace (s pat repl : String) : String :=
  if pat.data.isEmpty then s
  else ⟨replaceList pat.data repl.data s.data.length s.data⟩

/-- Python `s.lower()` (ASCII case folding suffices here). -/
def pyLower (s : String) : String := ⟨s.data.map Char.toLower⟩

/-- Python `s.startswith(pre)`. -/
def pyStartsWith (s pre : String) : Bool := isPrefixList pre.data s.data

/-- Python whitespace, as stripped by `str.strip()`. -/
def isPySpace (c : Char) : Bool :=
  c = ' ' || c = '\t' || c = '\n' || c = '\x0d' || c = '\x0b' || c = '\x0c'

/-- Python `s.strip()`: remove leading and trailing whitespace. -/
def pyStrip (s : String) : String :=
  ⟨((s.data.dropWhile isPySpace).reverse.dropWhile isPySpace).reverse⟩

/-- Python `s.rstrip("/")`: remove trailing slashes. -/
def rstripSlashes (s : String) : String :=
  ⟨(s.data.reverse.dropWhile (· = '/')).reverse⟩

/-- Python `sep.join(l)`. -/
def joinSep (sep : String) : List String → String
  | [] => ""
  | [x] => x
  | x :: xs => x ++ sep ++ joinSep sep xs

/-! ## Workspace data model (`pmr_cache.py`, class `Workspace`)

`cached_at` is a capture timestamp produced impurely in Python
(`datetime.now`); here it is an ordinary field supplied by the caller. -/

structure Workspace where
  href : String
  id : String
  title : String
  owner : String
  description : String := ""
  latest_exposure : List (String × Json) := []
  cached_at : String := ""

/-- Embedding of `Workspace.to_dict`. -/
def Workspace.to_dict (w : Workspace) : List (String × Json) :=
  [ ("href", .str w.href),
    ("id", .str w.id),
    ("title", .str w.title),
    ("owner", .str w.owner),
    ("description", .str w.description),
    ("latest_exposure", .obj w.latest_exposure),
    ("cached_at", .str w.cached_at) ]

/-- Embedding of `Workspace.from_dict`.  Python raises `KeyError` when a required key
(`href`, `id`, `title`, `owner`) is missing; failure is modelled as `none`.
Optional keys fall back to their defaults exactly as `data.get(...)` does. -/
def Workspace.from_dict (d : List (String × Json)) : Option Workspace :=
  match dictGet d "href", dictGet d "id", dictGet d "title", dictGet d "owner" with
  | some (.str h), some (.str i), some (.str t), some (.str o) =>
    some
      { href := h, id := i, title := t, owner := o
        description := match dictGet d "description" with
          | some (.str s) => s
          | _ => ""
        latest_exposure := match dictGet d "latest_exposure" with
          | some (.obj fs) => fs
          | _ => []
        cached_at := match dictGet d "cached_at" with
          | some (.str s) => s
          | _ => "" }
  | _, _, _, _ => none

/-! ## The persisted workspace mapping (`workspaces.json`)

The store serializes the mapping `href → workspace-dict` wholesale; in
memory it is the insertion-ordered mapping `_load_workspaces` returns. -/

abbrev Store := List (String × List (String × Json))

/-- Python-level runtime errors surfaced by the embedded code. -/
inductive PyErr where
  | keyError : String → PyErr
  | attributeError : String → PyErr
  | typeError : String → PyErr
deriving DecidableEq, Repr

/-- Embedding of `PMRCache.get_workspace`: look up by key; a missing or falsy (empty)
entry yields `None`, otherwise the entry is deserialized. -/
def getWorkspace (s : Store) (workspace_id : String) : Option Workspace :=
  match dictGet s workspace_id with
  | none => none
  | some entry => if entry.isEmpty then none else Workspace.from_dict entry

/-- Embedding of `PMRCache.upsert_workspace`, which runs `data[workspace.href] = workspace.to_dict()`. -/
def upsertWorkspace (s : Store) (w : Workspace) : Store :=
  dictInsert s w.href w.to_dict

/-- Embedding of `PMRCache.delete_workspace` (mapping part only): remove the key if
present, reporting whether it was found. -/
def deleteWorkspace (s : Store) (workspace_id : String) : Store × Bool :=
  if dictMem s workspace_id then
    (s.filter (fun p => p.1 ≠ workspace_id), true)
  else (s, false)

/-- Python `[Workspace.from_dict(v) for v in data.values()]`, first failure wins. -/
def loadAll : List (List (String × Json)) → Except PyErr (List Workspace)
  | [] => .ok []
  | v :: vs =>
    match Workspace.from_dict v with
    | some w => do
      let ws ← loadAll vs
      return w :: ws
    | none => .error (.keyError "href")

/-- Embedding of `PMRCache.list_workspaces`: deserialize all values, then
`sorted(workspaces, key=lambda w: w.name.lower())`.  The `Workspace`
dataclass has no `name` attribute (the field is `title`), so the sort key
raises `AttributeError` on the first element of any non-empty list;
`sorted([])` returns `[]` without calling the key. -/
def listWorkspaces (s : Store) : Except PyErr (List Workspace) := do
  let ws ← loadAll (s.map (·.2))
  match ws with
  | [] => Except.ok []
  | _ :: _ => Except.error (PyErr.attributeError "name")

/-! ## Export transform (`workspace_list_to_mx_fmt.py`) -/

/- `find_in_dict(data, target_key)`: depth-first search of a nested
structure for the first occurrence of a key.  Python's `return value` on a
key match ends the scan of that dict immediately; a matched `None` value is
indistinguishable from absence for the caller (`result is not None`), so it
is returned as `none` here.  Recursion only descends into dict or list
values, and a `none` result from a subtree lets the scan continue. -/
mutual

def findInDict (t : String) : Json → Option Json
  | .obj fs => findInObj t fs
  | .arr xs => findInArr t xs
  | _ => none

def findInObj (t : String) : List (String × Json) → Option Json
  | [] => none
  | (k, v) :: rest =>
    if k = t then
      match v with
      | .null => none
      | _ => some v
    else
      match v with
      | .obj _ | .arr _ =>
        (match findInDict t v with
         | some r => some r
         | none => findInObj t rest)
      | _ => findInObj t rest

def findInArr (t : String) : List Json → Option Json
  | [] => none
  | x :: rest =>
    (match x with
     | .obj _ | .arr _ =>
       (match findInDict t x with
        | some r => some r
        | none => findInArr t rest)
     | _ => findInArr t rest)

end

/-- The derived (not persisted) export entry. -/
structure OmicsDIEntry where
  id : String := ""
  name : String := ""
  description : String := ""
  url : String := ""
  publications : String := ""
deriving DecidableEq, Repr

/-- Minimal XML escaping used by the export: only `&`. -/
def ampEscape (s : String) : String := pyReplace s "&" "&amp;"

/-- Python `citation.lower()`: only strings have the method. -/
def jsonLower : Json → Except PyErr String
  | .str s => .ok (pyLower s)
  | _ => .error (.attributeError "lower")

/-- Python `for _ in x`: lists yield their items, dicts their keys,
strings their characters; other values raise `TypeError`. -/
def pyIter : Json → Except PyErr (List Json)
  | .arr xs => .ok xs
  | .obj fs => .ok (fs.map (fun p => .str p.1))
  | .str s => .ok (s.data.map (fun c => .str (String.mk [c])))
  | _ => .error (.typeError "not iterable")

/-- De-duplication of the lower-cased citation strings.  The source uses a
Python `set`, whose iteration order is unspecified; the embedding fixes the
first-occurrence order. -/
def pyDedup (l : List String) : List String :=
  go [] l
where
  go : List String → List String → List String
    | _, [] => []
    | seen, x :: xs =>
      if x ∈ seen then go seen xs else x :: go (x :: seen) xs

def pubmedUrn : String := "urn:miriam:pubmed:"

/-- For each link, the first truthy `citation_id` found at any depth
(lines 102–105: `find_in_dict(l, 'citation_id')`, appended `if citation_id`). -/
def collectCitations (links : List Json) : List Json :=
  links.filterMap (fun l =>
    match findInDict "citation_id" l with
    | some c => if pyTruthy c then some c else none
    | none => none)

/-- Python `[citation.lower() for citation in citations]`, first failure wins. -/
def lowerAll : List Json → Except PyErr (List String)
  | [] => .ok []
  | c :: cs => do
    let l ← jsonLower c
    let ls ← lowerAll cs
    return l :: ls

/-- Lines 106–114: lower-case, de-duplicate, strip the pubmed URN
(a global `str.replace`, keeping other URNs verbatim), join with `" ; "`. -/
def publicationsOf (citations : List Json) : Except PyErr String := do
  let lowered ← lowerAll citations
  let citationSet := pyDedup lowered
  let pubs := citationSet.map (fun c =>
    if pyStartsWith c pubmedUrn then pyReplace c pubmedUrn "" else c)
  return joinSep " ; " pubs

/-- Lines 94–114: build one export entry from a workspace.  A non-empty
`latest_exposure` is indexed by `'links'` unguarded (`KeyError` when the
key is absent) and the result is iterated. -/
def mkEntry (w : Workspace) : Except PyErr OmicsDIEntry := do
  let citations ←
    if w.latest_exposure.isEmpty then
      pure []
    else
      match dictGet w.latest_exposure "links" with
      | none => Except.error (PyErr.keyError "links")
      | some links => do
        let ls ← pyIter links
        pure (collectCitations ls)
  let pubs ← publicationsOf citations
  return { id := w.id
           name := ampEscape w.title
           description := ampEscape w.description
           url := w.href
           publications := pubs }

/-- Lines 116–137: accumulate an entry into the mapping keyed by entry id.
On a repeated id: same publications → drop; prior has publications, new has
none → drop; both non-empty and different → the source renames `entry.id`
to a fresh `base.i` key but then falls out of the branch without storing
the entry, so the mapping is unchanged; prior has none and new has some →
replace under the same key; neither has publications → no branch applies
and the entry is dropped. -/
def reconcile (d : List (String × OmicsDIEntry)) (entry : OmicsDIEntry) :
    List (String × OmicsDIEntry) :=
  match dictGet d entry.id with
  | some old_entry =>
    if old_entry.publications ≠ "" then
      if entry.publications = old_entry.publications then d
      else if entry.publications = "" then d
      else d
    else if entry.publications ≠ "" then dictInsert d entry.id entry
    else d
  | none => dictInsert d entry.id entry

/-- The per-workspace loop of `export_to_omicsdi` (lines 93–137), applied
to the in-memory workspace records. -/
def exportEntries (ws : List Workspace) :
    Except PyErr (List (String × OmicsDIEntry)) :=
  ws.foldlM (fun d w => do
    let e ← mkEntry w
    return reconcile d e) []

/-- One rendered `<entry>` element (template `entry_tmpl`, lines 31–46 and
the fallbacks applied at lines 141–147). -/
def renderEntry (e : OmicsDIEntry) : String :=
  "\n    <entry id=\"" ++ e.id ++ "\">\n" ++
  "        <name>" ++ (if e.name = "" then e.id else e.name) ++ "</name>\n" ++
  "        <description>" ++
    (if e.description = "" then "Exposure with the id: " ++ e.id
     else e.description) ++ "</description>\n" ++
  "        <cross_references>\n" ++
  "            <ref dbname=\"pubmed\" dbkey=\"" ++ e.publications ++ "\"/>\n" ++
  "        </cross_references>\n" ++
  "        <additional_fields>\n" ++
  "            <field name=\"submitter\">David Nickerson</field>\n" ++
  "            <field name=\"submitter_mail\">d.nickerson@auckland.ac.nz</field>\n" ++
  "            <field name=\"repository\">PMR</field>\n" ++
  "            <field name=\"full_dataset_link\">" ++ e.url ++ "</field>\n" ++
  "            <field name=\"omics_type\">Models</field>\n" ++
  "        </additional_fields>    \n" ++
  "    </entry>\n"

/-- The document envelope (`tmpl`, lines 19–29); the release number and
date come from the clock and are parameters here. -/
def renderDocument (entries : List OmicsDIEntry) (today releaseNumber : String) :
    String :=
  "<database>\n" ++
  "  <name>Physiome Model Repository</name>\n" ++
  "  <description>The main goal of the Physiome Model Repository is to provide a resource for the community to store, retrieve, search, reference, and reuse models.</description>\n" ++
  "  <release>" ++ releaseNumber ++ "</release>\n" ++
  "  <release_date>" ++ today ++ "</release_date>\n" ++
  "  <entry_count>" ++ toString entries.length ++ "</entry_count>\n" ++
  "  <entries>  \n    " ++
  String.join (entries.map renderEntry) ++
  "\n  </entries>\n</database>\n"

/-- The `entry_count` figure interpolated into the rendered document. -/
def exportCount (ws : List Workspace) : Except PyErr Nat :=
  (exportEntries ws).map List.length

/-- Embedding of `export_to_omicsdi` end to end: the workspace list is obtained through
`PMRCache.list_workspaces`, then transformed and rendered. -/
def export_to_omicsdi (s : Store) (today releaseNumber : String) :
    Except PyErr String := do
  let ws ← listWorkspaces s
  let d ← exportEntries ws
  return renderDocument (d.map (·.2)) today releaseNumber

/-! ## Cache directory initialisation (`PMRCache.__init__` and helpers)

The slice of the filesystem a cache root can touch: whether the base
directory exists, the contents of the `.pmr-instance` marker and of
`workspaces.json` when present, whether the `repos/` subdirectory exists,
and the names of any other entries in the base directory. -/

structure Folder where
  present : Bool := false
  instanceFile : Option String := none
  workspacesFile : Option String := none
  reposDir : Bool := false
  otherEntries : List String := []
deriving DecidableEq, Repr

/-- Python `any(self._base.iterdir())`. -/
def Folder.nonEmpty (f : Folder) : Bool :=
  f.instanceFile.isSome || f.workspacesFile.isSome || f.reposDir ||
    !f.otherEntries.isEmpty

inductive CacheErr where
  | instanceMismatch (base_folder expected found : String)
  | notInitialised (base_folder : String)
deriving DecidableEq, Repr

/-- Python `json.dumps` of the empty mapping plus a newline, the empty workspaces store. -/
def emptyMappingText : String := "\x7b\x7d\n"

/-- Embedding of `PMRCache._initialise_new`: create the directory tree, write the
instance marker (`self._instance + "\n"`) and an empty workspaces store.
`inst` is the already-normalized instance URL. -/
def initialiseNew (f : Folder) (inst : String) : Folder :=
  { f with present := true
           reposDir := true
           instanceFile := some (inst ++ "\n")
           workspacesFile := some emptyMappingText }

/-- Embedding of `PMRCache._open_existing`: no marker and a non-empty directory is a
`CacheNotInitialisedError`; no marker and an empty directory is set up
fresh; a marker is read, whitespace-stripped, and compared verbatim with
the normalized requested URL, mismatches raising `InstanceMismatchError`
with the path, the expected and the found value; on a match the repos
directory and the workspaces file are recreated if missing. -/
def openExisting (f : Folder) (base inst : String) : Except CacheErr Folder :=
  match f.instanceFile with
  | none =>
    if f.nonEmpty then .error (.notInitialised base)
    else .ok (initialiseNew f inst)
  | some content =>
    let stored := pyStrip content
    if stored ≠ inst then .error (.instanceMismatch base inst stored)
    else .ok { f with
                reposDir := true
                workspacesFile := some (f.workspacesFile.getD emptyMappingText) }

/-- Embedding of `PMRCache.__init__`: normalize the requested instance URL by stripping
trailing slashes, then open or create the folder at `base`. -/
def pmrCacheInit (f : Folder) (base pmr_instance : String) :
    Except CacheErr Folder :=
  let inst := rstripSlashes pmr_instance
  if f.present then openExisting f base inst else .ok (initialiseNew f inst)

/-! ## Cache-population pipeline (`workspaces.cache_workspace_information`)

The fetcher (`create_workspace`, which performs network requests) is an
abstract parameter.  The loop over the selected urls is embedded together
with the list of urls that were actually fetched (each fetch is followed by
an upsert of its result; a skipped url performs neither). -/

def cachePipeline (fetch : String → Workspace) (force_refresh : Bool) :
    Store → List String → Store × List String
  | s, [] => (s, [])
  | s, u :: rest =>
    if (getWorkspace s u).isSome && !force_refresh then
      cachePipeline fetch force_refresh s rest
    else
      let s' := upsertWorkspace s (fetch u)
      ((cachePipeline fetch force_refresh s' rest).1,
       u :: (cachePipeline fetch force_refresh s' rest).2)

/-! ## Spec-side descriptions of the publications pipeline (for comparison
with the source pipeline in claim C8) -/

/-- The claim's words, read literally: strip the known pubmed URN from the
front of a value that starts with it; keep other values verbatim. -/
def claimStrip (c : String) : String :=
  if pyStartsWith c pubmedUrn then ⟨c.data.drop pubmedUrn.data.length⟩ else c

/-- The claim's publications string: lower-case the citation values,
de-duplicate them, strip the pubmed URN from each, join with `" ; "`. -/
def claimPublications (vals : List String) : String :=
  joinSep " ; " ((pyDedup (vals.map pyLower)).map claimStrip)

/-- The pipeline the source actually implements: as `claimPublications`,
except that the strip is a global `str.replace`, removing every occurrence
of the pubmed URN from a value that starts with it. -/
def amendedPublications (vals : List String) : String :=
  joinSep " ; " ((pyDedup (vals.map pyLower)).map (fun c =>
    if pyStartsWith c pubmedUrn then pyReplace c pubmedUrn "" else c))

/-! ## Test fixtures shared by several claims -/

/-- An exposure mapping whose links carry one citation id. -/
def pubmedExposure (c : String) : List (String × Json) :=
  [("links", Json.arr [Json.obj [("citation_id", Json.str c)]])]

/-- A workspace whose latest exposure carries one citation id. -/
def wsPub (href id title c : String) : Workspace :=
  { href := href, id := id, title := title, owner := "owner"
    latest_exposure := pubmedExposure c }

/-- A workspace with no exposure (and hence no publications). -/
def wsPlain (href id title : String) : Workspace :=
  { href := href, id := id, title := title, owner := "owner" }

/-- A workspace whose non-empty latest exposure has no `links` key. -/
def wsNoLinks (href id title : String) : Workspace :=
  { href := href, id := id, title := title, owner := "owner"
    latest_exposure := [("title", Json.str "an exposure")] }

/-- A stub fetcher for the pipeline: returns a fresh record whose href is
the requested url (as `create_workspace` does for the live API). -/
def fetchStub (url : String) : Workspace := wsPlain url "fetched" "F"

/-! ## Basic lemmas about the mapping operations -/

theorem dictGet_insert_self {α : Type} (d : List (String × α)) (k : String)
    (v : α) : dictGet (dictInsert d k v) k = some v := by
  induction d with
  | nil => simp [dictInsert, dictGet]
  | cons p rest ih =>
    cases p with
    | mk k' v' =>
      by_cases h : k' = k
      · simp [dictInsert, h, dictGet]
      · simpa [dictInsert, h, dictGet] using ih

theorem dictGet_insert_ne {α : Type} (d : List (String × α)) (k x : String)
    (v : α) (h : k ≠ x) : dictGet (dictInsert d k v) x = dictGet d x := by
  induction d with
  | nil => simp [dictInsert, dictGet, h]
  | cons p rest ih =>
    cases p with
    | mk k' v' =>
      by_cases hk : k' = k
      · subst hk; simp [dictInsert, dictGet, h]
      · by_cases hx : k' = x
        · subst hx
          simp [dictInsert, hk, dictGet]
        · simpa [dictInsert, hk, dictGet, hx] using ih

theorem dictMem_insert_self {α : Type} (d : List (String × α)) (k : String)
    (v : α) : dictMem (dictInsert d k v) k = true := by
  simp [dictMem, dictGet_insert_self]

theorem length_dictInsert_mem {α : Type} (d : List (String × α)) (k : String)
    (v : α) (h : dictMem d k = true) :
    (dictInsert d k v).length = d.length := by
  induction d with
  | nil => simp [dictMem, dictGet] at h
  | cons p rest ih =>
    cases p with
    | mk k' v' =>
      by_cases hk : k' = k
      · simp [dictInsert, hk]
      · have h' : dictMem rest k = true := by
          simpa [dictMem, dictGet, hk] using h
        simpa [dictInsert, hk] using ih h'

theorem from_dict_to_dict (w : Workspace) :
    Workspace.from_dict w.to_dict = some w := rfl

theorem getWorkspace_upsert_self (s : Store) (w : Workspace) :
    getWorkspace (upsertWorkspace s w) w.href = some w := by
  unfold getWorkspace upsertWorkspace
  rw [dictGet_insert_self]
  simp [show (Workspace.to_dict w).isEmpty = false from rfl, from_dict_to_dict]

theorem getWorkspace_upsert_ne (s : Store) (w : Workspace) (x : String)
    (h : w.href ≠ x) :
    getWorkspace (upsertWorkspace s w) x = getWorkspace s x := by
  unfold getWorkspace upsertWorkspace
  rw [dictGet_insert_ne _ _ _ _ h]

/-! ## Claim C1 -/

/-- C1: two workspace records whose export entries share the id `"w1"` and
have differing non-empty publications `"111"` and `"222"`.  The claim says
the export keeps both entries (count 2, keys `w1` and `w1.1`), but the
"keep both" branch of the reconciliation renames `entry.id` and then falls
through without storing the renamed entry, so the second entry is dropped:
the rendered entry count is 1 and only the first entry survives. -/
theorem c1_rename_branch_never_stores :
    (exportEntries [wsPub "h1" "w1" "A" "urn:miriam:pubmed:111",
                    wsPub "h2" "w1" "B" "urn:miriam:pubmed:222"]).map
        (fun d => d.map (fun p => (p.1, p.2.publications))) =
      .ok [("w1", "111")] ∧
    exportCount [wsPub "h1" "w1" "A" "urn:miriam:pubmed:111",
                 wsPub "h2" "w1" "B" "urn:miriam:pubmed:222"] = .ok 1 := by
  constructor <;> rfl

/-! ## Claim C2 -/

/-- C2: `list_workspaces` sorts by `w.name.lower()`, but the `Workspace`
dataclass has no `name` attribute (the display-name field is `title`), so
the call raises `AttributeError` on every non-empty cache; only the empty
cache returns (the empty sorted list). -/
theorem c2_list_workspaces_attribute_error :
    listWorkspaces (upsertWorkspace [] (wsPlain "h1" "w1" "A")) =
      .error (.attributeError "name") ∧
    listWorkspaces [] = .ok [] := by
  constructor <;> rfl

/-! ## Claim C3 -/

/-- C3: when two workspace records derive export entries with the same id,
one with publications `"111"` and one with empty publications, the export
transform keeps exactly one entry for that id, with publications `"111"`,
in either processing order: the empty-publications newcomer is dropped, and
an empty-publications incumbent is replaced in place. -/
theorem c3_empty_publications_reconciliation (w1 w2 : Workspace)
    (e1 e2 : OmicsDIEntry) (h1 : mkEntry w1 = .ok e1)
    (h2 : mkEntry w2 = .ok e2) (hid : e2.id = e1.id)
    (hp1 : e1.publications = "111") (hp2 : e2.publications = "") :
    exportEntries [w1, w2] = .ok [(e1.id, e1)] ∧
    exportEntries [w2, w1] = .ok [(e1.id, e1)] := by
  unfold exportEntries
  simp [List.foldlM, List.find?, h1, h2, reconcile, dictGet, dictInsert,
    hid, hp1, hp2, Except.bind, Bind.bind, pure, Except.pure]

/-- Witness for C3 at concrete records: publications `"111"` versus none,
both processing orders keep the single `"111"` entry. -/
theorem c3_empty_publications_reconciliation_witness :
    exportEntries [wsPub "h1" "w1" "A" "urn:miriam:pubmed:111",
                   wsPlain "h3" "w1" "C"] =
      .ok [("w1", { id := "w1", name := "A", description := "", url := "h1",
                    publications := "111" })] ∧
    exportEntries [wsPlain "h3" "w1" "C",
                   wsPub "h1" "w1" "A" "urn:miriam:pubmed:111"] =
      .ok [("w1", { id := "w1", name := "A", description := "", url := "h1",
                    publications := "111" })] :=
  c3_empty_publications_reconciliation
    (wsPub "h1" "w1" "A" "urn:miriam:pubmed:111") (wsPlain "h3" "w1" "C")
    { id := "w1", name := "A", description := "", url := "h1",
      publications := "111" }
    { id := "w1", name := "C", description := "", url := "h3",
      publications := "" }
    (by rfl) (by rfl) rfl rfl rfl

/-! ## Claim C4 -/

/-- C4 counterexample: two non-identical workspace records whose export
entries share the id `"w1"` and both have empty publications.  The claim
predicts the "keep both, rename" branch (entry count 2); the code takes
neither the rename branch (it requires the incumbent's publications to be
non-empty) nor the replace branch, so the second entry is silently dropped
and the rendered entry count is 1. -/
theorem c4_counterexample :
    (mkEntry (wsPlain "h3" "w1" "C")).map (fun e => (e.id, e.publications)) =
      .ok ("w1", "") ∧
    (mkEntry (wsPlain "h4" "w1" "D")).map (fun e => (e.id, e.publications)) =
      .ok ("w1", "") ∧
    wsPlain "h3" "w1" "C" ≠ wsPlain "h4" "w1" "D" ∧
    exportCount [wsPlain "h3" "w1" "C", wsPlain "h4" "w1" "D"] = .ok 1 :=
  ⟨rfl, rfl,
   fun h => absurd (congrArg Workspace.href h) (by decide),
   rfl⟩

/-- C4 amended: when two workspace records derive export entries with the
same id and both have empty publications, the second entry is dropped
(no branch of the reconciliation stores it), so only the first record's
entry survives and the rendered entry count is 1. -/
theorem c4_both_empty_drops_second (w1 w2 : Workspace)
    (e1 e2 : OmicsDIEntry) (h1 : mkEntry w1 = .ok e1)
    (h2 : mkEntry w2 = .ok e2) (hid : e2.id = e1.id)
    (hp1 : e1.publications = "") (hp2 : e2.publications = "") :
    exportEntries [w1, w2] = .ok [(e1.id, e1)] := by
  unfold exportEntries
  simp [List.foldlM, List.find?, h1, h2, reconcile, dictGet, dictInsert,
    hid, hp1, hp2, Except.bind, Bind.bind, pure, Except.pure]

/-- Witness for the amended C4 at concrete records. -/
theorem c4_both_empty_drops_second_witness :
    exportEntries [wsPlain "h3" "w1" "C", wsPlain "h4" "w1" "D"] =
      .ok [("w1", { id := "w1", name := "C", description := "", url := "h3",
                    publications := "" })] :=
  c4_both_empty_drops_second (wsPlain "h3" "w1" "C") (wsPlain "h4" "w1" "D")
    { id := "w1", name := "C", description := "", url := "h3",
      publications := "" }
    { id := "w1", name := "D", description := "", url := "h4",
      publications := "" }
    (by rfl) (by rfl) rfl rfl rfl

/-! ## Claim C5 -/

theorem dictMem_insert {α : Type} (d : List (String × α)) (k x : String)
    (v : α) (h : dictMem d x = true) :
    dictMem (dictInsert d k v) x = true := by
  by_cases hk : k = x
  · subst hk; exact dictMem_insert_self d k v
  · simpa [dictMem, dictGet_insert_ne d k x v hk] using h

theorem foldl_upsert_length (l : List Workspace) (s : Store)
    (h : ∀ v ∈ l, dictMem s v.href = true) :
    (l.foldl upsertWorkspace s).length = s.length := by
  induction l generalizing s with
  | nil => rfl
  | cons v rest ih =>
    have hv : dictMem s v.href = true := h v (List.mem_cons_self v rest)
    have hlen : (upsertWorkspace s v).length = s.length :=
      length_dictInsert_mem s v.href v.to_dict hv
    have hmem : ∀ u ∈ rest, dictMem (upsertWorkspace s v) u.href = true :=
      fun u hu => dictMem_insert s v.href u.href v.to_dict (h u (List.mem_cons_of_mem v hu))
    calc ((v :: rest).foldl upsertWorkspace s).length
        = (rest.foldl upsertWorkspace (upsertWorkspace s v)).length := rfl
      _ = (upsertWorkspace s v).length := ih (upsertWorkspace s v) hmem
      _ = s.length := hlen

/-- C5: upserting a workspace and reading it back by its href returns an
equal record; upsert overwrites by href, so any further sequence of
upserts of records with that same href leaves the number of records in the
persisted mapping unchanged from the state after the first upsert. -/
theorem c5_upsert_get_overwrite (s : Store) (w : Workspace)
    (rest : List Workspace) (hrest : ∀ v ∈ rest, v.href = w.href) :
    getWorkspace (upsertWorkspace s w) w.href = some w ∧
    (rest.foldl upsertWorkspace (upsertWorkspace s w)).length =
      (upsertWorkspace s w).length := by
  refine ⟨getWorkspace_upsert_self s w, ?_⟩
  refine foldl_upsert_length rest (upsertWorkspace s w) (fun v hv => ?_)
  rw [hrest v hv]
  exact dictMem_insert_self s w.href w.to_dict

/-- Witness for C5: a concrete store, a workspace, and two further upserts
of modified records with the same href. -/
theorem c5_upsert_get_overwrite_witness :
    getWorkspace (upsertWorkspace [] (wsPlain "h1" "w1" "A")) "h1" =
      some (wsPlain "h1" "w1" "A") ∧
    ([wsPlain "h1" "w1" "B", wsPlain "h1" "w2" "C"].foldl upsertWorkspace
        (upsertWorkspace [] (wsPlain "h1" "w1" "A"))).length =
      (upsertWorkspace [] (wsPlain "h1" "w1" "A")).length :=
  c5_upsert_get_overwrite [] (wsPlain "h1" "w1" "A")
    [wsPlain "h1" "w1" "B", wsPlain "h1" "w2" "C"]
    (by intro v hv; simp [wsPlain] at hv ⊢; rcases hv with h | h <;> simp [h])

/-! ## Claim C6 -/

/-- C6 counterexample: a stored marker that differs from the requested URL
only by a trailing slash.  Both URLs are equal after trailing-slash
normalization, so the claim predicts a successful open; the code only
normalizes the requested URL (the stored marker is merely
whitespace-stripped), so the open fails with an instance mismatch. -/
theorem c6_counterexample :
    rstripSlashes "https://models.example.org/" =
      rstripSlashes "https://models.example.org" ∧
    pmrCacheInit
        { present := true,
          instanceFile := some "https://models.example.org/\n" }
        "/cache" "https://models.example.org" =
      .error (.instanceMismatch "/cache" "https://models.example.org"
        "https://models.example.org/") := by
  constructor <;> rfl

/-- C6 amended: opening an existing store whose marker is present compares
the whitespace-stripped stored marker verbatim against the requested URL
with its trailing slashes stripped; a difference fails with an
instance-mismatch error carrying the path, the expected (normalized
requested) value and the found (stored) value, and equality succeeds.
Trailing-slash normalization is not applied to the stored marker. -/
theorem c6_instance_marker_comparison (f : Folder) (base url content : String)
    (hp : f.present = true) (hi : f.instanceFile = some content) :
    (pyStrip content ≠ rstripSlashes url →
      pmrCacheInit f base url =
        .error (.instanceMismatch base (rstripSlashes url) (pyStrip content))) ∧
    (pyStrip content = rstripSlashes url →
      pmrCacheInit f base url =
        .ok { f with reposDir := true, workspacesFile := some (f.workspacesFile.getD emptyMappingText) }) := by
  constructor <;> intro h <;> simp [pmrCacheInit, openExisting, hp, hi, h]

/-- Witness for the amended C6: a mismatching marker fails carrying path,
expected and found; a matching marker (differing only by surrounding
whitespace) succeeds. -/
theorem c6_instance_marker_comparison_witness :
    pmrCacheInit
        { present := true, instanceFile := some "https://other.example.org\n" }
        "/cache" "https://models.example.org" =
      .error (.instanceMismatch "/cache" "https://models.example.org"
        "https://other.example.org") ∧
    pmrCacheInit
        { present := true, instanceFile := some "https://models.example.org\n" }
        "/cache" "https://models.example.org/" =
      .ok { present := true,
            instanceFile := some "https://models.example.org\n",
            workspacesFile := some emptyMappingText,
            reposDir := true, otherEntries := [] } :=
  by
  have h1 := (c6_instance_marker_comparison
    { present := true, instanceFile := some "https://other.example.org\n" }
    "/cache" "https://models.example.org" "https://other.example.org\n"
    rfl rfl).1 (by decide)
  have h2 := (c6_instance_marker_comparison
    { present := true, instanceFile := some "https://models.example.org\n" }
    "/cache" "https://models.example.org/" "https://models.example.org\n"
    rfl rfl).2 (by decide)
  exact ⟨h1, h2⟩

/-! ## Claim C7 -/

/-- C7: opening an existing directory that has no instance marker fails
with the not-initialised error exactly when the directory is non-empty;
an empty directory is initialized — marker written, empty mapping created,
repos subdirectory created — producing exactly the state that opening a
non-existent path produces. -/
theorem c7_missing_marker (f : Folder) (base url : String)
    (hp : f.present = true) (hi : f.instanceFile = none) :
    (f.nonEmpty = true →
      pmrCacheInit f base url = .error (.notInitialised base)) ∧
    (f.nonEmpty = false →
      pmrCacheInit f base url = pmrCacheInit { present := false } base url ∧
      pmrCacheInit f base url =
        .ok { present := true,
              instanceFile := some (rstripSlashes url ++ "\n"),
              workspacesFile := some emptyMappingText,
              reposDir := true, otherEntries := [] }) := by
  obtain ⟨pres, instF, wsF, repos, others⟩ := f
  simp only at hp hi
  subst hp hi
  constructor
  · intro hne
    simp [pmrCacheInit, openExisting, hne]
  · intro hne
    simp only [Folder.nonEmpty, Bool.or_eq_false_iff] at hne
    obtain ⟨⟨⟨hw, hr⟩, _⟩, ho⟩ :=
      And.intro (And.intro (And.intro hne.1.1.2 hne.1.2) hne.1.1.1) hne.2
    have hw' : wsF = none := by
      cases wsF with
      | none => rfl
      | some v => simp at hw
    have ho' : others = [] := by
      cases others with
      | nil => rfl
      | cons a l => simp at ho
    subst hw' ho' hr
    constructor <;>
      simp [pmrCacheInit, openExisting, Folder.nonEmpty, initialiseNew]

/-- Witness for C7: a non-empty marker-less folder fails; an empty
existing folder is initialized to the same state as a non-existent one. -/
theorem c7_missing_marker_witness :
    pmrCacheInit { present := true, otherEntries := ["stray.txt"] } "/cache"
        "https://models.example.org/" = .error (.notInitialised "/cache") ∧
    pmrCacheInit { present := true } "/cache" "https://models.example.org/" =
      pmrCacheInit { present := false } "/cache" "https://models.example.org/" ∧
    pmrCacheInit { present := true } "/cache" "https://models.example.org/" =
      .ok { present := true,
            instanceFile := some "https://models.example.org\n",
            workspacesFile := some emptyMappingText,
            reposDir := true, otherEntries := [] } := by
  have h1 := (c7_missing_marker
    { present := true, otherEntries := ["stray.txt"] } "/cache"
    "https://models.example.org/" rfl rfl).1 rfl
  have h2 := (c7_missing_marker { present := true } "/cache"
    "https://models.example.org/" rfl rfl).2 rfl
  exact ⟨h1, h2.1, h2.2⟩

/-! ## Claim C8 -/

theorem lowerAll_str (vals : List String) :
    lowerAll (vals.map Json.str) = .ok (vals.map pyLower) := by
  induction vals with
  | nil => rfl
  | cons v vs ih =>
    simp [lowerAll, jsonLower, ih, Except.bind, Bind.bind, pure, Except.pure]

/-- C8 counterexample: a citation value in which the pubmed URN occurs
twice.  "Stripping the prefix" leaves the second occurrence in place, but
the code performs a global `str.replace` and removes both, so the
exported publications string differs from the claim's description. -/
theorem c8_counterexample :
    (mkEntry (wsPub "h1" "w1" "A"
        "urn:miriam:pubmed:urn:miriam:pubmed:12345")).map
        (fun e => e.publications) = .ok "12345" ∧
    claimPublications ["urn:miriam:pubmed:urn:miriam:pubmed:12345"] =
      "urn:miriam:pubmed:12345" ∧
    ("12345" : String) ≠ "urn:miriam:pubmed:12345" :=
  ⟨rfl, rfl, by decide⟩

/-- C8 amended: for a workspace whose non-empty `latest_exposure` holds a
`links` array, the export entry's publications string is built from the
truthy `citation_id` values found per link by depth-first search at any
nesting level, by lower-casing and de-duplicating them, removing every
occurrence of the `"urn:miriam:pubmed:"` URN (a global replace) from each
value that starts with it while keeping other URNs verbatim, and joining
the results with `" ; "`. -/
theorem c8_publications_pipeline (w : Workspace) (links : List Json)
    (vals : List String) (hne : w.latest_exposure.isEmpty = false)
    (hl : dictGet w.latest_exposure "links" = some (.arr links))
    (hv : collectCitations links = vals.map Json.str) :
    (mkEntry w).map (fun e => e.publications) =
      .ok (amendedPublications vals) := by
  unfold mkEntry
  simp [hne, hl, pyIter, hv, publicationsOf, lowerAll_str,
    amendedPublications, Except.bind, Bind.bind, pure, Except.pure,
    Except.map]

/-- Witness for the amended C8: the claim's own example — a nested
exposure link carrying `citation_id "urn:miriam:pubmed:12345"` yields the
publications string `"12345"`. -/
theorem c8_publications_pipeline_witness :
    (mkEntry (wsPub "h1" "w1" "A" "urn:miriam:pubmed:12345")).map
        (fun e => e.publications) =
      .ok (amendedPublications ["urn:miriam:pubmed:12345"]) ∧
    amendedPublications ["urn:miriam:pubmed:12345"] = "12345" :=
  ⟨c8_publications_pipeline (wsPub "h1" "w1" "A" "urn:miriam:pubmed:12345")
      [Json.obj [("citation_id", Json.str "urn:miriam:pubmed:12345")]]
      ["urn:miriam:pubmed:12345"] rfl rfl (by rfl),
   rfl⟩

/-! ## Claim C9 -/

theorem pipeline_frame (fetch : String → Workspace)
    (hfetch : ∀ v, (fetch v).href = v) (urls : List String) :
    ∀ (s : Store) (u : String) (r : Workspace), getWorkspace s u = some r →
      getWorkspace (cachePipeline fetch false s urls).1 u = some r ∧
      u ∉ (cachePipeline fetch false s urls).2 := by
  induction urls with
  | nil =>
    intro s u r h
    exact ⟨h, by simp [cachePipeline]⟩
  | cons v rest ih =>
    intro s u r h
    by_cases hv : (getWorkspace s v).isSome
    · have heq : cachePipeline fetch false s (v :: rest) =
          cachePipeline fetch false s rest := by
        simp [cachePipeline, hv]
      rw [heq]
      exact ih s u r h
    · have hnone : getWorkspace s v = none := by
        cases hgv : getWorkspace s v with
        | none => rfl
        | some x => rw [hgv] at hv; simp at hv
      have hne : v ≠ u := by
        intro he
        rw [he, h] at hnone
        exact Option.noConfusion hnone
      have hstep : getWorkspace (upsertWorkspace s (fetch v)) u = some r := by
        rw [getWorkspace_upsert_ne s (fetch v) u (by rw [hfetch v]; exact hne)]
        exact h
      have hrec := ih (upsertWorkspace s (fetch v)) u r hstep
      refine ⟨by simpa [cachePipeline, hv] using hrec.1, ?_⟩
      have hgoal : ¬(u = v ∨
          u ∈ (cachePipeline fetch false (upsertWorkspace s (fetch v)) rest).2) := by
        rintro (he | hm)
        · exact hne he.symm
        · exact hrec.2 hm
      simpa [cachePipeline, hv] using hgoal

theorem pipeline_fetched_absent (fetch : String → Workspace)
    (hfetch : ∀ v, (fetch v).href = v) (urls : List String) :
    ∀ (s : Store) (u : String), u ∈ (cachePipeline fetch false s urls).2 →
      getWorkspace s u = none := by
  induction urls with
  | nil =>
    intro s u h
    simp [cachePipeline] at h
  | cons v rest ih =>
    intro s u h
    by_cases hv : (getWorkspace s v).isSome
    · have heq : cachePipeline fetch false s (v :: rest) =
          cachePipeline fetch false s rest := by
        simp [cachePipeline, hv]
      rw [heq] at h
      exact ih s u h
    · have hnone : getWorkspace s v = none := by
        cases hgv : getWorkspace s v with
        | none => rfl
        | some x => rw [hgv] at hv; simp at hv
      have h' : u = v ∨
          u ∈ (cachePipeline fetch false (upsertWorkspace s (fetch v)) rest).2 := by
        simpa [cachePipeline, hv] using h
      rcases h' with h' | h'
      · rw [h']; exact hnone
      · have hrec := ih (upsertWorkspace s (fetch v)) u h'
        have hself : getWorkspace (upsertWorkspace s (fetch v)) v =
            some (fetch v) := by
          have hs := getWorkspace_upsert_self s (fetch v)
          rwa [hfetch v] at hs
        have hne : v ≠ u := by
          intro he
          rw [← he, hself] at hrec
          exact Option.noConfusion hrec
        rw [← getWorkspace_upsert_ne s (fetch v) u (by rw [hfetch v]; exact hne)]
        exact hrec

theorem pipeline_forced_fetches_all (fetch : String → Workspace)
    (urls : List String) :
    ∀ s : Store, (cachePipeline fetch true s urls).2 = urls := by
  induction urls with
  | nil => intro s; rfl
  | cons v rest ih =>
    intro s
    simp [cachePipeline, ih]

theorem pipeline_absent_is_fetched (fetch : String → Workspace)
    (hfetch : ∀ v, (fetch v).href = v) (urls : List String) :
    ∀ (s : Store) (u : String), u ∈ urls → getWorkspace s u = none →
      u ∈ (cachePipeline fetch false s urls).2 := by
  induction urls with
  | nil =>
    intro s u h
    simp at h
  | cons v rest ih =>
    intro s u hmem hnone
    by_cases hv : (getWorkspace s v).isSome
    · have hne : u ≠ v := by
        intro he
        rw [← he, hnone] at hv
        simp at hv
      have hmem' : u ∈ rest := by
        rcases List.mem_cons.mp hmem with h | h
        · exact absurd h hne
        · exact h
      have heq : cachePipeline fetch false s (v :: rest) =
          cachePipeline fetch false s rest := by
        simp [cachePipeline, hv]
      rw [heq]
      exact ih s u hmem' hnone
    · have hgoal : u = v ∨
          u ∈ (cachePipeline fetch false (upsertWorkspace s (fetch v)) rest).2 := by
        by_cases he : u = v
        · exact Or.inl he
        · refine Or.inr ?_
          have hmem' : u ∈ rest := by
            rcases List.mem_cons.mp hmem with h | h
            · exact absurd h he
            · exact h
          have hnone' : getWorkspace (upsertWorkspace s (fetch v)) u = none := by
            rw [getWorkspace_upsert_ne s (fetch v) u
              (by rw [hfetch v]; exact fun hvu => he hvu.symm)]
            exact hnone
          exact ih (upsertWorkspace s (fetch v)) u hmem' hnone'
      simpa [cachePipeline, hv] using hgoal

/-- C9: in the cache-population loop, when `force_refresh` is off, every
url already present in the store is skipped — its stored record is
unchanged by the whole run and it is never fetched or upserted; every url
that was fetched was absent from the store it was checked against (or the
refresh was forced); and every selected url that is absent (or processed
with `force_refresh` on) is fetched and upserted.  The fetcher is assumed
to return records keyed by the requested url. -/
theorem c9_cache_pipeline (fetch : String → Workspace) (force : Bool)
    (s : Store) (urls : List String) (hfetch : ∀ v, (fetch v).href = v) :
    (force = false → ∀ (u : String) (r : Workspace),
      getWorkspace s u = some r →
      getWorkspace (cachePipeline fetch force s urls).1 u = some r ∧
      u ∉ (cachePipeline fetch force s urls).2) ∧
    (∀ u : String, u ∈ (cachePipeline fetch force s urls).2 →
      force = true ∨ getWorkspace s u = none) ∧
    (∀ u : String, u ∈ urls → (force = true ∨ getWorkspace s u = none) →
      u ∈ (cachePipeline fetch force s urls).2) := by
  refine ⟨?_, ?_, ?_⟩
  · intro hf u r h
    subst hf
    exact pipeline_frame fetch hfetch urls s u r h
  · intro u h
    cases force with
    | true => exact Or.inl rfl
    | false => exact Or.inr (pipeline_fetched_absent fetch hfetch urls s u h)
  · intro u hmem hcase
    cases force with
    | true => rw [pipeline_forced_fetches_all fetch urls s]; exact hmem
    | false =>
      rcases hcase with h | h
      · exact Bool.noConfusion h
      · exact pipeline_absent_is_fetched fetch hfetch urls s u hmem h

/-- Witness for C9: a concrete store caching `"h1"`, a run over urls
`["h1", "h2"]` with `force_refresh` off — `"h1"` keeps its record and is
not fetched, `"h2"` is fetched. -/
theorem c9_cache_pipeline_witness :
    getWorkspace (cachePipeline fetchStub false
        (upsertWorkspace [] (wsPlain "h1" "w1" "A")) ["h1", "h2"]).1 "h1" =
      some (wsPlain "h1" "w1" "A") ∧
    "h1" ∉ (cachePipeline fetchStub false
        (upsertWorkspace [] (wsPlain "h1" "w1" "A")) ["h1", "h2"]).2 ∧
    "h2" ∈ (cachePipeline fetchStub false
        (upsertWorkspace [] (wsPlain "h1" "w1" "A")) ["h1", "h2"]).2 := by
  have T := c9_cache_pipeline fetchStub false
    (upsertWorkspace [] (wsPlain "h1" "w1" "A")) ["h1", "h2"]
    (fun v => rfl)
  have h1 := T.1 rfl "h1" (wsPlain "h1" "w1" "A") (by rfl)
  have h2 := T.2.2 "h2" (by simp) (Or.inr (by rfl))
  exact ⟨h1.1, h1.2, h2⟩

/-! ## Claim C10 -/

/-- C10: for every workspace whose `latest_exposure` is a non-empty
mapping without a `links` key, the per-entry construction — and hence the
export transform run over a cache holding that workspace — fails with a
key-lookup error instead of producing a document: the
`w.latest_exposure['links']` access is unguarded. -/
theorem c10_unguarded_links_access (w : Workspace)
    (hne : w.latest_exposure.isEmpty = false)
    (hl : dictGet w.latest_exposure "links" = none) :
    mkEntry w = .error (.keyError "links") ∧
    exportEntries [w] = .error (.keyError "links") := by
  have h1 : mkEntry w = .error (.keyError "links") := by
    unfold mkEntry
    simp [hne, hl, Except.bind, Bind.bind]
  refine ⟨h1, ?_⟩
  simp [exportEntries, List.foldlM, h1, Except.bind, Bind.bind]

/-- Witness for C10: a concrete workspace whose non-empty exposure lacks
the `links` key makes the export fail with the key error. -/
theorem c10_unguarded_links_access_witness :
    mkEntry (wsNoLinks "h9" "w9" "T") = .error (.keyError "links") ∧
    exportEntries [wsNoLinks "h9" "w9" "T"] = .error (.keyError "links") :=
  c10_unguarded_links_access (wsNoLinks "h9" "w9" "T") rfl rfl

end PmrUtils
